import Mathlib

/-
Verification of the data-fetch-and-filter state machine of
`src/components/todo-list.component.tsx`.

The Filter Projector (the `useEffect` at lines 77-85) is embedded as the
pure function `project`.  The Fetch Controller (`fetchTodos`, lines 42-56)
is embedded as a trace of state writes emitted for a given environment
outcome (network failure / HTTP response with a body-parse result), and as
the state transformer obtained by applying that trace to a component state.
-/

namespace TodoSpec

/-- Modelled from the spec: the task record type, imported by the component
from `src/types/todo-type` (file not among the sources).  Per the spec's
data model it is an identifier, a display title and a completion flag. -/
structure Todo where
  id : Int
  title : String
  completed : Bool
deriving DecidableEq, Repr

/-- Line 7: `type Filter = 'All' | 'Open' | 'Completed'`. -/
inductive Filter
  | All
  | Open
  | Completed
deriving DecidableEq, Repr

/-- Lines 77-85: the filter `useEffect` body.
`let updated = todos; if (filter === 'Open') updated = todos.filter(t => !t.completed);
else if (filter === 'Completed') updated = todos.filter(t => t.completed);` -/
def project (todos : List Todo) (filter : Filter) : List Todo :=
  match filter with
  | Filter.Open => todos.filter (fun todo => !todo.completed)
  | Filter.Completed => todos.filter (fun todo => todo.completed)
  | Filter.All => todos

/-- Claim C2: for every collection `R`, `project R Open` contains exactly the
elements of `R` whose completion flag is false, `project R Completed` exactly
those whose flag is true, the two are disjoint, and their union reordered to
`R`'s order (a permutation) equals `R`. -/
theorem project_partition (R : List Todo) :
    (∀ t, t ∈ project R Filter.Open ↔ t ∈ R ∧ t.completed = false)
    ∧ (∀ t, t ∈ project R Filter.Completed ↔ t ∈ R ∧ t.completed = true)
    ∧ (∀ t, ¬(t ∈ project R Filter.Open ∧ t ∈ project R Filter.Completed))
    ∧ (project R Filter.Open ++ project R Filter.Completed).Perm R := by
  refine ⟨?_, ?_, ?_, ?_⟩
  · intro t
    simp [project, List.mem_filter]
  · intro t
    simp [project, List.mem_filter]
  · intro t h
    rcases h with ⟨hOpen, hCompleted⟩
    simp [project, List.mem_filter] at hOpen hCompleted
    exact absurd hCompleted.2 (by simp [hOpen.2])
  · have h := List.filter_append_perm (fun todo => !todo.completed) R
    have heq : R.filter (fun todo => !(!todo.completed)) =
        R.filter (fun todo => todo.completed) := by
      simp
    simpa [project, heq] using h

/-- Claim C5: for every collection `R` and mode `M`, `project R M` is an
order-preserving subsequence of `R`, and `project R All = R`. -/
theorem project_sublist_all (R : List Todo) (M : Filter) :
    (project R M).Sublist R ∧ project R Filter.All = R := by
  constructor
  · cases M
    · exact List.Sublist.refl R
    · exact List.filter_sublist R
    · exact List.filter_sublist R
  · rfl

/-- Claim C8: projecting with `All` first changes nothing:
`project (project R All) M = project R M`. -/
theorem project_all_idem (R : List Todo) (M : Filter) :
    project (project R Filter.All) M = project R M := rfl

/-- A JSON value, as produced at runtime by `response.json()`.  The source
annotates the result as `Todo[]` (line 48) but performs no runtime check, so
the published value ranges over all of JSON. -/
inductive Json
  | null
  | bool (b : Bool)
  | num (n : Int)
  | str (s : String)
  | arr (elems : List Json)
  | obj (fields : List (String × Json))

/-- A thrown JavaScript value as discriminated by line 52:
either an `Error` instance carrying a message, or any other value. -/
inductive JsError
  | errorObj (message : String)
  | nonError
deriving DecidableEq, Repr

/-- Line 52: `error instanceof Error ? error.message : 'unknown error occurred'`. -/
def errorMessage : JsError → String
  | JsError.errorObj message => message
  | JsError.nonError => "unknown error occurred"

/-- The behaviour of `await response.json()` (line 48): the body either fails
to parse (the promise rejects) or parses to some JSON value. -/
inductive BodyParse
  | failure (e : JsError)
  | success (v : Json)

/-- The environment's resolution of `await fetch(...)` (line 44): the request
fails outright, or a response arrives with an HTTP status and a body. -/
inductive FetchOutcome
  | netFailure (e : JsError)
  | response (status : Nat) (body : BodyParse)

/-- `response.ok` (line 45): true exactly for statuses 200-299. -/
def responseOk (status : Nat) : Bool :=
  200 ≤ status && status ≤ 299

/-- One call to a state setter of the component (lines 13-16). -/
inductive StateWrite
  | setTodos (v : Json)
  | setFilteredTodos (v : Json)
  | setLoading (b : Bool)
  | setError (e : Option String)

/-- An observable step of `fetchTodos`: a state write or the network read. -/
inductive Event
  | write (w : StateWrite)
  | networkRead (url : String)

/-- Lines 42-56: the sequence of events `fetchTodos` performs for a given
environment outcome.
`setLoading(true)`; `await fetch('https://jsonplaceholder.typicode.com/todos')`;
on a non-ok response `throw new Error('HTTP error! Status: 404')`;
otherwise `await response.json()`, then `setTodos(data); setFilteredTodos(data)`;
any thrown value reaches the catch block, which calls `setError(...)` with the
message of line 52; the finally block runs `setLoading(false)` last. -/
def fetchTodosTrace (outcome : FetchOutcome) : List Event :=
  Event.write (StateWrite.setLoading true)
    :: Event.networkRead "https://jsonplaceholder.typicode.com/todos"
    :: ((match outcome with
        | FetchOutcome.netFailure e =>
            [Event.write (StateWrite.setError (some (errorMessage e)))]
        | FetchOutcome.response status body =>
            if responseOk status then
              match body with
              | BodyParse.failure e =>
                  [Event.write (StateWrite.setError (some (errorMessage e)))]
              | BodyParse.success v =>
                  [Event.write (StateWrite.setTodos v),
                   Event.write (StateWrite.setFilteredTodos v)]
            else
              [Event.write (StateWrite.setError (some "HTTP error! Status: 404"))])
      ++ [Event.write (StateWrite.setLoading false)])

/-- The component state slots touched by `fetchTodos` (lines 67-70). -/
structure TodoListState where
  todos : Json
  filteredTodos : Json
  loading : Bool
  error : Option String

/-- Lines 67-70: `useState` initial values — `[]`, `[]`, `false`, `null`. -/
def initialState : TodoListState :=
  { todos := Json.arr [], filteredTodos := Json.arr [],
    loading := false, error := none }

/-- Effect of one event on the component state (a setter stores its value;
the network read touches no state). -/
def applyEvent (s : TodoListState) : Event → TodoListState
  | Event.write (StateWrite.setTodos v) => { s with todos := v }
  | Event.write (StateWrite.setFilteredTodos v) => { s with filteredTodos := v }
  | Event.write (StateWrite.setLoading b) => { s with loading := b }
  | Event.write (StateWrite.setError e) => { s with error := e }
  | Event.networkRead _ => s

/-- `fetchTodos` as a state transformer: the result of applying its event
trace to a starting component state. -/
def fetchTodos (outcome : FetchOutcome) (s : TodoListState) : TodoListState :=
  (fetchTodosTrace outcome).foldl applyEvent s

/-- Lines 73-75: the mount `useEffect` callback only invokes `fetchTodos`
and returns no cleanup function. -/
def mountEffectHasCleanup : Bool := false

/-- Environment condition: every failure description carried by an `Error`
object in the outcome is non-empty (true of the rejections browser `fetch` and
`Response.json` produce; the non-`Error` fallback message is non-empty by
construction). -/
def outcomeMessagesNonempty : FetchOutcome → Prop
  | FetchOutcome.netFailure e => errorMessage e ≠ ""
  | FetchOutcome.response _ (BodyParse.failure e) => errorMessage e ≠ ""
  | FetchOutcome.response _ (BodyParse.success _) => True

/-- First alternative of the fetch contract: the raw collection was written
during the invocation and the error slot ends absent. -/
def rawUpdatedNoError (outcome : FetchOutcome) : Prop :=
  (∃ v, Event.write (StateWrite.setTodos v) ∈ fetchTodosTrace outcome)
  ∧ (fetchTodos outcome initialState).error = none

/-- Second alternative of the fetch contract: the error slot ends present with
a non-empty message and the raw collection is unchanged (empty on first load). -/
def errorRecordedRawUnchanged (outcome : FetchOutcome) : Prop :=
  (∃ m, (fetchTodos outcome initialState).error = some m ∧ m ≠ "")
  ∧ (fetchTodos outcome initialState).todos = initialState.todos
  ∧ initialState.todos = Json.arr []

/-- Claim C1: after `fetchTodos` settles from the first-load state, exactly one
of the two outcomes holds: the raw collection was updated and the error slot is
absent, or the error slot holds a non-empty message and the raw collection is
unchanged (empty) — never both. -/
theorem fetchTodos_outcome_exclusive (outcome : FetchOutcome)
    (h : outcomeMessagesNonempty outcome) :
    (rawUpdatedNoError outcome ∧ ¬errorRecordedRawUnchanged outcome)
    ∨ (errorRecordedRawUnchanged outcome ∧ ¬rawUpdatedNoError outcome) := by
  cases outcome with
  | netFailure e =>
    right
    constructor
    · refine ⟨⟨errorMessage e, ?_, h⟩, ?_, rfl⟩
      · simp [fetchTodos, fetchTodosTrace, applyEvent]
      · simp [fetchTodos, fetchTodosTrace, applyEvent, initialState]
    · rintro ⟨-, habs⟩
      simp [fetchTodos, fetchTodosTrace, applyEvent] at habs
  | response status body =>
    by_cases hok : responseOk status
    · cases body with
      | failure e =>
        right
        constructor
        · refine ⟨⟨errorMessage e, ?_, h⟩, ?_, rfl⟩
          · simp [fetchTodos, fetchTodosTrace, applyEvent, hok]
          · simp [fetchTodos, fetchTodosTrace, applyEvent, hok, initialState]
        · rintro ⟨-, habs⟩
          simp [fetchTodos, fetchTodosTrace, applyEvent, hok] at habs
      | success v =>
        left
        constructor
        · refine ⟨⟨v, ?_⟩, ?_⟩
          · simp [fetchTodosTrace, hok]
          · simp [fetchTodos, fetchTodosTrace, applyEvent, hok, initialState]
        · rintro ⟨⟨m, habs, -⟩, -⟩
          simp [fetchTodos, fetchTodosTrace, applyEvent, hok, initialState] at habs
    · right
      constructor
      · refine ⟨⟨"HTTP error! Status: 404", ?_, by simp⟩, ?_, rfl⟩
        · simp [fetchTodos, fetchTodosTrace, applyEvent, hok]
        · simp [fetchTodos, fetchTodosTrace, applyEvent, hok, initialState]
      · rintro ⟨-, habs⟩
        simp [fetchTodos, fetchTodosTrace, applyEvent, hok] at habs

/-- Witness for C1 at a concrete network failure. -/
theorem fetchTodos_outcome_exclusive_witness :
    (rawUpdatedNoError (FetchOutcome.netFailure (JsError.errorObj "Failed to fetch"))
        ∧ ¬errorRecordedRawUnchanged (FetchOutcome.netFailure (JsError.errorObj "Failed to fetch")))
    ∨ (errorRecordedRawUnchanged (FetchOutcome.netFailure (JsError.errorObj "Failed to fetch"))
        ∧ ¬rawUpdatedNoError (FetchOutcome.netFailure (JsError.errorObj "Failed to fetch"))) :=
  fetchTodos_outcome_exclusive _ (by simp [outcomeMessagesNonempty, errorMessage])

/-- Claim C3 counterexample: at the concrete successful outcome (HTTP 200,
body `[]`), the invocation performs no `setError` of the absent value at all —
the only write before the network read is `setLoading true` — and a stale error
left in the state survives a successful `fetchTodos` unchanged. -/
theorem fetchTodos_no_error_reset :
    Event.write (StateWrite.setError none)
      ∉ fetchTodosTrace (FetchOutcome.response 200 (BodyParse.success (Json.arr [])))
    ∧ (fetchTodosTrace (FetchOutcome.response 200 (BodyParse.success (Json.arr [])))).take 2
      = [Event.write (StateWrite.setLoading true),
         Event.networkRead "https://jsonplaceholder.typicode.com/todos"]
    ∧ (fetchTodos (FetchOutcome.response 200 (BodyParse.success (Json.arr [])))
        { initialState with error := some "stale" }).error = some "stale" := by
  refine ⟨?_, rfl, rfl⟩
  simp [fetchTodosTrace, responseOk]

/-- Claim C3 (amended): every invocation's first side effect is setting the
loading flag to true, immediately followed by the network read; the error slot
is never written to absent, neither before the read nor at all. -/
theorem fetchTodos_first_effects (outcome : FetchOutcome) :
    (fetchTodosTrace outcome).take 2
      = [Event.write (StateWrite.setLoading true),
         Event.networkRead "https://jsonplaceholder.typicode.com/todos"]
    ∧ Event.write (StateWrite.setError none) ∉ fetchTodosTrace outcome := by
  refine ⟨rfl, ?_⟩
  cases outcome with
  | netFailure e => simp [fetchTodosTrace]
  | response status body =>
    by_cases hok : responseOk status
    · cases body <;> simp [fetchTodosTrace, hok]
    · simp [fetchTodosTrace, hok]

/-- An event that writes the raw collection, the filtered view or the error
slot (the writes the claim C4 requires to precede the loading-flag clear). -/
def isDataOrErrorWrite : Event → Prop
  | Event.write (StateWrite.setTodos _) => True
  | Event.write (StateWrite.setFilteredTodos _) => True
  | Event.write (StateWrite.setError _) => True
  | Event.write (StateWrite.setLoading _) => False
  | Event.networkRead _ => False

/-- Claim C4: each invocation's trace is `setLoading true`, the network read,
then only raw-collection/filtered/error writes, and `setLoading false` as the
very last event; in particular loading transitions true→false exactly once and
every data or error write happens before the loading flag is cleared. -/
theorem fetchTodos_loading_last (outcome : FetchOutcome) :
    ∃ mid,
      fetchTodosTrace outcome
        = Event.write (StateWrite.setLoading true)
          :: Event.networkRead "https://jsonplaceholder.typicode.com/todos"
          :: (mid ++ [Event.write (StateWrite.setLoading false)])
      ∧ (∀ b, Event.write (StateWrite.setLoading b) ∉ mid)
      ∧ (∀ e ∈ mid, isDataOrErrorWrite e) := by
  cases outcome with
  | netFailure e =>
    refine ⟨[Event.write (StateWrite.setError (some (errorMessage e)))], rfl, ?_, ?_⟩
    · intro b
      simp
    · intro x hx
      simp at hx
      simp [hx, isDataOrErrorWrite]
  | response status body =>
    by_cases hok : responseOk status
    · cases body with
      | failure e =>
        refine ⟨[Event.write (StateWrite.setError (some (errorMessage e)))], ?_, ?_, ?_⟩
        · simp [fetchTodosTrace, hok]
        · intro b
          simp
        · intro x hx
          simp at hx
          simp [hx, isDataOrErrorWrite]
      | success v =>
        refine ⟨[Event.write (StateWrite.setTodos v),
                 Event.write (StateWrite.setFilteredTodos v)], ?_, ?_, ?_⟩
        · simp [fetchTodosTrace, hok]
        · intro b
          simp
        · intro x hx
          simp at hx
          rcases hx with hx | hx <;> simp [hx, isDataOrErrorWrite]
    · refine ⟨[Event.write (StateWrite.setError (some "HTTP error! Status: 404"))], ?_, ?_, ?_⟩
      · simp [fetchTodosTrace, hok]
      · intro b
        simp
      · intro x hx
        simp at hx
        simp [hx, isDataOrErrorWrite]

/-- Claim C6 counterexample: at the concrete outcome HTTP 200 with the body
parsing to a JSON object (valid JSON, not an array), the claimed decode
failure does not occur: the error slot ends absent and the non-array value is
published as the raw collection. -/
theorem fetchTodos_nonArray_counterexample :
    ¬((∃ m, (fetchTodos (FetchOutcome.response 200
          (BodyParse.success (Json.obj [("message", Json.str "not found")])))
          initialState).error = some m ∧ m ≠ "")
      ∧ (fetchTodos (FetchOutcome.response 200
          (BodyParse.success (Json.obj [("message", Json.str "not found")])))
          initialState).todos = Json.arr [])
    ∧ (fetchTodos (FetchOutcome.response 200
        (BodyParse.success (Json.obj [("message", Json.str "not found")])))
        initialState).error = none
    ∧ (fetchTodos (FetchOutcome.response 200
        (BodyParse.success (Json.obj [("message", Json.str "not found")])))
        initialState).todos = Json.obj [("message", Json.str "not found")] := by
  refine ⟨?_, rfl, rfl⟩
  rintro ⟨⟨m, hm, -⟩, -⟩
  simp [fetchTodos, fetchTodosTrace, applyEvent, responseOk, initialState] at hm

/-- Claim C6 (amended): when the response is ok but its body fails to parse as
JSON, `fetchTodos` records the parse failure: the error slot ends populated
with the failure's (non-empty) message and the raw collection stays empty.  A
body that parses to a non-array JSON value is not detected and is published
as the raw collection. -/
theorem fetchTodos_parse_failure (status : Nat) (e : JsError)
    (hok : responseOk status = true) (hmsg : errorMessage e ≠ "") :
    (fetchTodos (FetchOutcome.response status (BodyParse.failure e)) initialState).error
      = some (errorMessage e)
    ∧ errorMessage e ≠ ""
    ∧ (fetchTodos (FetchOutcome.response status (BodyParse.failure e)) initialState).todos
      = Json.arr [] := by
  refine ⟨?_, hmsg, ?_⟩
  · simp [fetchTodos, fetchTodosTrace, applyEvent, hok]
  · simp [fetchTodos, fetchTodosTrace, applyEvent, hok, initialState]

/-- Witness for the amended C6 at HTTP 200 with an unparseable body. -/
theorem fetchTodos_parse_failure_witness :
    (fetchTodos (FetchOutcome.response 200
        (BodyParse.failure (JsError.errorObj "Unexpected token h in JSON")))
        initialState).error = some (errorMessage (JsError.errorObj "Unexpected token h in JSON"))
    ∧ errorMessage (JsError.errorObj "Unexpected token h in JSON") ≠ ""
    ∧ (fetchTodos (FetchOutcome.response 200
        (BodyParse.failure (JsError.errorObj "Unexpected token h in JSON")))
        initialState).todos = Json.arr [] :=
  fetchTodos_parse_failure 200 _ rfl (by simp [errorMessage])

/-- Claim C7: on a successful fetch, the parsed value is published to both the
raw-collection slot and the filtered-view slot within the same invocation:
both setter calls occur in the trace and both slots end holding the value. -/
theorem fetchTodos_publishes_both (status : Nat) (v : Json) (s : TodoListState)
    (hok : responseOk status = true) :
    (fetchTodos (FetchOutcome.response status (BodyParse.success v)) s).todos = v
    ∧ (fetchTodos (FetchOutcome.response status (BodyParse.success v)) s).filteredTodos = v
    ∧ Event.write (StateWrite.setTodos v)
        ∈ fetchTodosTrace (FetchOutcome.response status (BodyParse.success v))
    ∧ Event.write (StateWrite.setFilteredTodos v)
        ∈ fetchTodosTrace (FetchOutcome.response status (BodyParse.success v)) := by
  refine ⟨?_, ?_, ?_, ?_⟩
  · simp [fetchTodos, fetchTodosTrace, applyEvent, hok]
  · simp [fetchTodos, fetchTodosTrace, applyEvent, hok]
  · simp [fetchTodosTrace, hok]
  · simp [fetchTodosTrace, hok]

/-- Witness for C7 at HTTP 200 with body `[]` from the first-load state. -/
theorem fetchTodos_publishes_both_witness :
    (fetchTodos (FetchOutcome.response 200 (BodyParse.success (Json.arr []))) initialState).todos
      = Json.arr []
    ∧ (fetchTodos (FetchOutcome.response 200 (BodyParse.success (Json.arr [])))
        initialState).filteredTodos = Json.arr []
    ∧ Event.write (StateWrite.setTodos (Json.arr []))
        ∈ fetchTodosTrace (FetchOutcome.response 200 (BodyParse.success (Json.arr [])))
    ∧ Event.write (StateWrite.setFilteredTodos (Json.arr []))
        ∈ fetchTodosTrace (FetchOutcome.response 200 (BodyParse.success (Json.arr []))) :=
  fetchTodos_publishes_both 200 (Json.arr []) initialState rfl

/-- Claim C9: contrary to the claim, no liveness guard exists.  The mount
effect (lines 73-75) registers no cleanup, and the state writes of
`fetchTodos` are emitted unconditionally — the trace is a function of the
network outcome alone, so a fetch settling after teardown still performs its
`setTodos` write. -/
theorem fetchTodos_unguarded_writes :
    mountEffectHasCleanup = false
    ∧ Event.write (StateWrite.setTodos (Json.arr []))
        ∈ fetchTodosTrace (FetchOutcome.response 200 (BodyParse.success (Json.arr []))) := by
  refine ⟨rfl, ?_⟩
  simp [fetchTodosTrace, responseOk]

/-- Claim C10: every non-ok HTTP response, whatever its status code and body,
ends with the error slot holding the fixed literal message
`HTTP error! Status: 404`. -/
theorem fetchTodos_http_error_literal (status : Nat) (body : BodyParse)
    (s : TodoListState) (h : responseOk status = false) :
    (fetchTodos (FetchOutcome.response status body) s).error
      = some "HTTP error! Status: 404" := by
  simp [fetchTodos, fetchTodosTrace, applyEvent, h]

/-- Witness for C10 at HTTP status 500. -/
theorem fetchTodos_http_error_literal_witness :
    (fetchTodos (FetchOutcome.response 500 (BodyParse.success (Json.arr []))) initialState).error
      = some "HTTP error! Status: 404" :=
  fetchTodos_http_error_literal 500 (BodyParse.success (Json.arr [])) initialState rfl

end TodoSpec
